import Mathlib

/-!
Shallow embedding of `src/Vortex.py` from the VORTEX-Language repository.

The file models the two components the specification covers:

* `vortex_task` (src/Vortex.py lines 39-48) delegates to the tenacity
  library: `retry(stop=stop_after_attempt(retries),
  wait=wait_exponential(multiplier=1, min=min_wait, max=max_wait),
  reraise=True)`.  The tenacity loop is embedded as `retryLoop`: an
  operation is modelled as the map from the 1-based attempt number to that
  invocation's outcome; the loop invokes the operation, returns on success,
  re-raises the last error once `stop_after_attempt` fires, and otherwise
  sleeps `wait_exponential` and retries.  A run records the final outcome,
  the number of attempts made, and the list of backoff delays in order.

* `vortex_flow` (src/Vortex.py lines 53-81) runs the primary, and on any
  exception runs the fallback when `if fallback:` holds (Python truthiness,
  with `None` the default), re-raising the fallback's error if it fails too,
  and the primary's error when no truthy fallback exists.  The outcome of an
  invocation is an `Except` value; call counts of both operations are
  recorded.

Durations are modelled as naturals, matching the integer parameters of
`vortex_task`.
-/

namespace Vortex

/-- Outcome of one retry-wrapped execution: the final result (the returned
value or the re-raised error), the number of attempts actually made, and the
backoff delays slept between attempts, in order. -/
structure RetryRun (ε α : Type) where
  result : Except ε α
  attempts : Nat
  delays : List Nat

/-- Embeds tenacity `stop_after_attempt`: true once the attempt number of the
attempt that just finished has reached the configured maximum. -/
def stop_after_attempt (maxAttemptNumber attemptNumber : Nat) : Bool :=
  decide (maxAttemptNumber ≤ attemptNumber)

/-- Embeds tenacity `wait_exponential.__call__` on naturals: the delay used
after the failing attempt `attemptNumber` is
`max(max(0, min), min(multiplier * 2 ^ (attemptNumber - 1), max))`
with the default `exp_base = 2`.  `vortex_task` passes `multiplier = 1`. -/
def wait_exponential (multiplier minW maxW attemptNumber : Nat) : Nat :=
  Nat.max (Nat.max 0 minW) (Nat.min (multiplier * 2 ^ (attemptNumber - 1)) maxW)

/-- Embeds the tenacity retry loop configured by `vortex_task`: invoke the
operation at the current attempt number; on success return immediately; on
failure either re-raise that error unchanged (reraise=True) when
`stop_after_attempt` fires, or sleep `wait_exponential` and move to the next
attempt. -/
def retryLoop {ε α : Type} (op : Nat → Except ε α) (retries minW maxW attempt : Nat) :
    RetryRun ε α :=
  match op attempt with
  | Except.ok v => ⟨Except.ok v, attempt, []⟩
  | Except.error e =>
    if hstop : stop_after_attempt retries attempt then
      ⟨Except.error e, attempt, []⟩
    else
      let rest := retryLoop op retries minW maxW (attempt + 1)
      ⟨rest.result, rest.attempts, wait_exponential 1 minW maxW attempt :: rest.delays⟩
termination_by retries - attempt
decreasing_by
  simp [stop_after_attempt] at hstop
  omega

/-- Embeds `vortex_task` (src/Vortex.py lines 39-48): the decorated operation
runs under `stop_after_attempt retries`, `wait_exponential` with multiplier 1
bounded by `min_wait` and `max_wait`, and reraise=True, starting at attempt
number 1. -/
def vortex_task {ε α : Type} (retries min_wait max_wait : Nat)
    (op : Nat → Except ε α) : RetryRun ε α :=
  retryLoop op retries min_wait max_wait 1

/-- The Python value passed as the `fallback` argument of `vortex_flow`:
either `None` (the declared default) or an object carrying its truthiness and
the outcome that `await fallback()` would produce. -/
inductive PyFallback (ε α : Type) where
  | none
  | obj (truthy : Bool) (outcome : Except ε α)

/-- Python truthiness of the fallback argument, as tested by `if fallback:`
in `vortex_flow`; `None` is falsy. -/
def PyFallback.truthy {ε α : Type} : PyFallback ε α → Bool
  | PyFallback.none => false
  | PyFallback.obj t _ => t

/-- Result of one `vortex_flow` call: the value returned or error raised,
plus how many times the primary and the fallback were invoked. -/
structure FlowResult (ε α : Type) where
  result : Except ε α
  primaryCalls : Nat
  fallbackCalls : Nat

/-- Embeds `vortex_flow` (src/Vortex.py lines 53-81): run the primary and
return its value on success; on any exception, when `if fallback:` holds
(the `PyFallback.obj true` case) run the fallback, returning its value or
re-raising its error; otherwise (fallback `None` or falsy) re-raise the
primary's error. -/
def vortex_flow {ε α : Type} (primary : Except ε α) (fallback : PyFallback ε α) :
    FlowResult ε α :=
  match primary with
  | Except.ok r => ⟨Except.ok r, 1, 0⟩
  | Except.error e =>
    match fallback with
    | PyFallback.obj true fbOutcome =>
      match fbOutcome with
      | Except.ok r => ⟨Except.ok r, 1, 1⟩
      | Except.error fbE => ⟨Except.error fbE, 1, 1⟩
    | PyFallback.obj false _ => ⟨Except.error e, 1, 0⟩
    | PyFallback.none => ⟨Except.error e, 1, 0⟩

/-- Unfolding lemma for `retryLoop`: a successful attempt returns at once. -/
theorem retryLoop_ok {ε α : Type} (op : Nat → Except ε α)
    (retries minW maxW attempt : Nat) (v : α) (h : op attempt = Except.ok v) :
    retryLoop op retries minW maxW attempt = ⟨Except.ok v, attempt, []⟩ := by
  unfold retryLoop
  split <;> simp_all

/-- Unfolding lemma for `retryLoop`: a failing attempt at or past the attempt
bound re-raises that attempt's error unchanged. -/
theorem retryLoop_stop {ε α : Type} (op : Nat → Except ε α)
    (retries minW maxW attempt : Nat) (e : ε) (h : op attempt = Except.error e)
    (hs : retries ≤ attempt) :
    retryLoop op retries minW maxW attempt = ⟨Except.error e, attempt, []⟩ := by
  unfold retryLoop
  split <;> simp_all [stop_after_attempt]

/-- Unfolding lemma for `retryLoop`: a failing attempt below the attempt bound
sleeps the exponential delay and continues with the next attempt. -/
theorem retryLoop_continue {ε α : Type} (op : Nat → Except ε α)
    (retries minW maxW attempt : Nat) (e : ε) (h : op attempt = Except.error e)
    (hs : attempt < retries) :
    retryLoop op retries minW maxW attempt =
      ⟨(retryLoop op retries minW maxW (attempt + 1)).result,
       (retryLoop op retries minW maxW (attempt + 1)).attempts,
       wait_exponential 1 minW maxW attempt ::
         (retryLoop op retries minW maxW (attempt + 1)).delays⟩ := by
  rw [retryLoop.eq_def]
  rw [h]
  have hs' : stop_after_attempt retries attempt = false := by
    simp [stop_after_attempt]
    omega
  simp [hs']

/-- A run over an always-failing operation starting at `attempt` with
`N - attempt = k` makes attempts up to `N`, returns attempt `N`'s error, and
sleeps the exponential delays for attempts `attempt, ..., N - 1`. -/
theorem retryLoop_all_fail {ε α : Type} (es : Nat → ε) (N minW maxW : Nat) :
    ∀ k attempt, 1 ≤ attempt → attempt ≤ N → k = N - attempt →
      retryLoop (fun j => (Except.error (es j) : Except ε α)) N minW maxW attempt =
        ⟨Except.error (es N), N,
         (List.range' attempt k).map (wait_exponential 1 minW maxW)⟩ := by
  intro k
  induction k with
  | zero =>
    intro attempt h1 h2 hk
    have hN : attempt = N := by omega
    subst hN
    rw [retryLoop_stop (fun j => (Except.error (es j) : Except ε α)) attempt minW maxW
      attempt (es attempt) rfl (by omega)]
    simp [List.range']
  | succ k ih =>
    intro attempt h1 h2 hk
    rw [retryLoop_continue (fun j => (Except.error (es j) : Except ε α)) N minW maxW
      attempt (es attempt) rfl (by omega)]
    rw [ih (attempt + 1) (by omega) (by omega) (by omega)]
    simp [List.range'_succ]

/-- A run over an operation that fails strictly before attempt `K` and
succeeds at attempt `K ≤ N`, started at `attempt ≤ K` with `K - attempt = k`,
returns attempt `K`'s value after exactly `K` attempts, sleeping only the
delays for attempts `attempt, ..., K - 1`. -/
theorem retryLoop_first_success {ε α : Type} (op : Nat → Except ε α) (r : α)
    (K N minW maxW : Nat) (hok : op K = Except.ok r) (hKN : K ≤ N)
    (hfail : ∀ j, 1 ≤ j → j < K → ∃ e, op j = Except.error e) :
    ∀ k attempt, 1 ≤ attempt → attempt ≤ K → k = K - attempt →
      retryLoop op N minW maxW attempt =
        ⟨Except.ok r, K, (List.range' attempt k).map (wait_exponential 1 minW maxW)⟩ := by
  intro k
  induction k with
  | zero =>
    intro attempt h1 h2 hk
    have hK : attempt = K := by omega
    subst hK
    rw [retryLoop_ok _ _ _ _ _ _ hok]
    simp [List.range']
  | succ k ih =>
    intro attempt h1 h2 hk
    obtain ⟨e, he⟩ := hfail attempt h1 (by omega)
    rw [retryLoop_continue _ _ _ _ _ _ he (by omega)]
    rw [ih (attempt + 1) (by omega) (by omega) (by omega)]
    simp [List.range'_succ]

/-- C1: for every max_attempts = N with N ≥ 1 and every operation that fails
on every invocation, the `vortex_task`-wrapped execution invokes the operation
exactly N times and then re-raises the Nth attempt's error itself, unchanged
(no wrapper kind). -/
theorem C1_retry_exhaustion {ε α : Type} (es : Nat → ε) (N min_wait max_wait : Nat)
    (hN : 1 ≤ N) :
    (vortex_task (α := α) N min_wait max_wait (fun j => Except.error (es j))).result
        = Except.error (es N) ∧
    (vortex_task (α := α) N min_wait max_wait (fun j => Except.error (es j))).attempts
        = N := by
  unfold vortex_task
  rw [retryLoop_all_fail es N min_wait max_wait (N - 1) 1 (by omega) (by omega) (by omega)]
  exact ⟨rfl, rfl⟩

/-- Witness for C1 at N = 3 with the always-failing operation whose i-th error
is i. -/
theorem C1_retry_exhaustion_witness :
    (vortex_task (α := Nat) 3 1 4 (fun j => Except.error j)).result = Except.error 3 ∧
    (vortex_task (α := Nat) 3 1 4 (fun j => Except.error j)).attempts = 3 :=
  C1_retry_exhaustion (fun j => j) 3 1 4 (by decide)

/-- C2: when the primary fails and a (truthy) fallback is present and also
fails, `vortex_flow` raises exactly the fallback's error, not the primary's. -/
theorem C2_fallback_error_precedence {ε α : Type} (e fbE : ε) :
    vortex_flow (α := α) (Except.error e) (PyFallback.obj true (Except.error fbE)) =
      ⟨Except.error fbE, 1, 1⟩ := rfl

/-- C4: when the primary fails and the (truthy) fallback succeeds with r,
`vortex_flow` returns r and raises no error; both operations ran once. -/
theorem C4_fallback_success {ε α : Type} (e : ε) (r : α) :
    vortex_flow (Except.error e) (PyFallback.obj true (Except.ok r)) =
      ⟨Except.ok r, 1, 1⟩ := rfl

/-- C5: when the primary succeeds with r, `vortex_flow` returns r and the
fallback — whatever it is — is never invoked: its call count is zero. -/
theorem C5_primary_success_skips_fallback {ε α : Type} (r : α)
    (fallback : PyFallback ε α) :
    vortex_flow (Except.ok r) fallback = ⟨Except.ok r, 1, 0⟩ := rfl

/-- C6: when the primary fails and no fallback is configured (the `None`
default), `vortex_flow` raises exactly the primary's error unchanged, and the
absence of a fallback produces no separate error and no fallback call. -/
theorem C6_no_fallback_propagates_primary {ε α : Type} (e : ε) :
    vortex_flow (α := α) (Except.error e) PyFallback.none =
      ⟨Except.error e, 1, 0⟩ := rfl

/-- C7: for every max_attempts = N and operation that succeeds on attempt K
with 1 ≤ K ≤ N (failing strictly before), the retry-wrapped execution invokes
the operation exactly K times, returns attempt K's result, and sleeps only the
K - 1 delays before the success — attempts K+1..N never occur and no delay
follows the success. -/
theorem C7_success_at_attempt_K {ε α : Type} (op : Nat → Except ε α) (r : α)
    (K N min_wait max_wait : Nat) (hK1 : 1 ≤ K) (hKN : K ≤ N)
    (hok : op K = Except.ok r)
    (hfail : ∀ j, 1 ≤ j → j < K → ∃ e, op j = Except.error e) :
    (vortex_task N min_wait max_wait op).result = Except.ok r ∧
    (vortex_task N min_wait max_wait op).attempts = K ∧
    (vortex_task N min_wait max_wait op).delays.length = K - 1 := by
  unfold vortex_task
  rw [retryLoop_first_success op r K N min_wait max_wait hok hKN hfail (K - 1) 1
    (by omega) (by omega) (by omega)]
  refine ⟨rfl, rfl, ?_⟩
  simp

/-- Witness for C7: the operation failing at attempt 1 and succeeding at
attempt 2 of 3 runs twice, returns 42, and sleeps one delay. -/
theorem C7_success_at_attempt_K_witness :
    (vortex_task 3 1 4 (fun j => if j == 2 then Except.ok 42 else Except.error j)).result
        = Except.ok 42 ∧
    (vortex_task 3 1 4 (fun j => if j == 2 then Except.ok 42 else Except.error j)).attempts
        = 2 ∧
    (vortex_task 3 1 4 (fun j => if j == 2 then Except.ok 42 else Except.error j)).delays.length
        = 2 - 1 :=
  C7_success_at_attempt_K (fun j => if j == 2 then Except.ok 42 else Except.error j)
    42 2 3 1 4 (by decide) (by decide) rfl
    (by
      intro j h1 h2
      have hj : j = 1 := by omega
      subst hj
      exact ⟨1, rfl⟩)

/-- C3 counterexample: with min_delay = 3, max_delay = 10 and an always-failing
operation under max_attempts = 3, the delay slept after failing attempt 2 is 3,
not min(max_delay, min_delay * 2 ^ (2 - 1)) = 6 as the claim's formula states:
the code's multiplier is fixed at 1, it is not min_delay. -/
theorem C3_backoff_counterexample :
    (vortex_task (α := Nat) 3 3 10 (fun j => Except.error j)).delays[1]? = some 3 ∧
    (vortex_task (α := Nat) 3 3 10 (fun j => Except.error j)).delays[1]? ≠
      some (Nat.min 10 (3 * 2 ^ (2 - 1))) := by
  unfold vortex_task
  rw [retryLoop_all_fail (fun j => j) 3 3 10 2 1 (by omega) (by omega) (by omega)]
  constructor
  · decide
  · decide

/-- C3 (amended): the backoff delay inserted after failing attempt i
(1 ≤ i < max_attempts) equals max(min_delay, min(2 ^ (i - 1), max_delay)) —
tenacity's wait_exponential with multiplier 1, so the delay starts from 1
doubling each attempt but clamped into the band — hence, when
min_delay ≤ max_delay, every delay lies within [min_delay, max_delay] and is
non-decreasing in i. -/
theorem C3_amended_backoff {ε α : Type} (es : Nat → ε)
    (N min_wait max_wait i : Nat) (h1 : 1 ≤ i) (h2 : i < N)
    (hband : min_wait ≤ max_wait) :
    (vortex_task (α := α) N min_wait max_wait (fun j => Except.error (es j))).delays[i - 1]?
        = some (Nat.max min_wait (Nat.min (2 ^ (i - 1)) max_wait)) ∧
    min_wait ≤ Nat.max min_wait (Nat.min (2 ^ (i - 1)) max_wait) ∧
    Nat.max min_wait (Nat.min (2 ^ (i - 1)) max_wait) ≤ max_wait ∧
    Nat.max min_wait (Nat.min (2 ^ (i - 1)) max_wait)
        ≤ Nat.max min_wait (Nat.min (2 ^ i) max_wait) := by
  refine ⟨?_, ?_, ?_, ?_⟩
  · unfold vortex_task
    rw [retryLoop_all_fail es N min_wait max_wait (N - 1) 1 (by omega) (by omega) (by omega)]
    simp only [List.getElem?_map]
    rw [List.getElem?_range' 1 1 (show i - 1 < N - 1 by omega)]
    have hi : 1 + 1 * (i - 1) = i := by omega
    rw [hi]
    simp [wait_exponential]
  · exact le_max_left _ _
  · exact max_le hband (min_le_right _ _)
  · exact max_le_max (le_refl _)
      (min_le_min (Nat.pow_le_pow_right (by omega) (by omega)) (le_refl _))

/-- Witness for the amended C3 at min_delay = 3, max_delay = 10, i = 2,
max_attempts = 3. -/
theorem C3_amended_backoff_witness :
    (vortex_task (α := Nat) 3 3 10 (fun j => Except.error j)).delays[2 - 1]?
        = some (Nat.max 3 (Nat.min (2 ^ (2 - 1)) 10)) ∧
    3 ≤ Nat.max 3 (Nat.min (2 ^ (2 - 1)) 10) ∧
    Nat.max 3 (Nat.min (2 ^ (2 - 1)) 10) ≤ 10 ∧
    Nat.max 3 (Nat.min (2 ^ (2 - 1)) 10) ≤ Nat.max 3 (Nat.min (2 ^ 2) 10) :=
  C3_amended_backoff (fun j => j) 3 3 10 2 (by decide) (by decide) (by decide)

/-- C8 counterexample: with max_attempts = 0 (< 1) the code raises no
configuration error before running anything — the operation is still invoked,
once — and a primary whose invocation raises, as a non-callable primary would,
is handled by `vortex_flow` as an ordinary operation failure that engages the
fallback rather than a distinct configuration error. -/
theorem C8_no_config_validation_counterexample :
    (vortex_task (α := Nat) 0 1 4 (fun j => Except.error j)).attempts = 1 ∧
    vortex_flow (Except.error 0) (PyFallback.obj true (Except.ok 7)) =
      ⟨Except.ok 7, 1, 1⟩ := by
  constructor
  · unfold vortex_task
    rw [retryLoop_stop (fun j => (Except.error j : Except Nat Nat)) 0 1 4 1 1 rfl
      (by omega)]
  · rfl

/-- C8 (amended): the code performs no configuration validation and has no
distinct configuration-error kind. For max_attempts = retries ≤ 1 (including
the structurally invalid retries < 1) the operation is still invoked, exactly
once, and its error is re-raised unchanged with no delay; and `vortex_flow`
treats any exception from invoking the primary — including the TypeError a
non-callable primary raises — as an ordinary operation failure that engages
the fallback. -/
theorem C8_amended_no_validation {ε α : Type} (retries min_wait max_wait : Nat)
    (es : Nat → ε) (e : ε) (r : α) (h : retries ≤ 1) :
    vortex_task (α := α) retries min_wait max_wait (fun j => Except.error (es j)) =
      ⟨Except.error (es 1), 1, []⟩ ∧
    vortex_flow (Except.error e) (PyFallback.obj true (Except.ok r)) =
      ⟨Except.ok r, 1, 1⟩ := by
  constructor
  · unfold vortex_task
    exact retryLoop_stop (fun j => (Except.error (es j) : Except ε α)) retries min_wait
      max_wait 1 (es 1) rfl (by omega)
  · rfl

/-- Witness for the amended C8 at retries = 0. -/
theorem C8_amended_no_validation_witness :
    vortex_task (α := Nat) 0 1 4 (fun j => Except.error j) =
      ⟨Except.error 1, 1, []⟩ ∧
    vortex_flow (Except.error 0) (PyFallback.obj true (Except.ok 7)) =
      ⟨Except.ok 7, 1, 1⟩ :=
  C8_amended_no_validation 0 1 4 (fun j => j) 0 7 (by decide)

/-- C10: `vortex_flow` decides fallback presence by truthiness, not by an
is-None test — for every falsy fallback value (None being the default), a
failing primary causes the primary's error to be re-raised and the fallback is
never invoked, exactly as in the no-fallback case. -/
theorem C10_truthiness_decides_fallback {ε α : Type} (e : ε) (fb : PyFallback ε α)
    (h : fb.truthy = false) :
    vortex_flow (Except.error e) fb = ⟨Except.error e, 1, 0⟩ := by
  cases fb with
  | none => rfl
  | obj t o =>
    cases t
    · rfl
    · simp [PyFallback.truthy] at h

/-- Witness for C10: a falsy non-None fallback that would succeed is skipped
and the primary's error surfaces. -/
theorem C10_truthiness_decides_fallback_witness :
    vortex_flow (Except.error 0) (PyFallback.obj false (Except.ok 5)) =
      ⟨Except.error 0, 1, 0⟩ :=
  C10_truthiness_decides_fallback 0 (PyFallback.obj false (Except.ok 5)) rfl

end Vortex
